import Mathlib

/-!
Verification of the event-sourced health-record core of the myb-dy-health
repository: a shallow embedding of its data model (Supabase tables from the
migrations), its write paths (journal entries, amendments, document uploads,
visit summaries, the Fasten demo sync edge function, source management) and
its read paths (timeline listing, event lookup under row-level security, the
amendment "current view" fold, the documents-download proxy), together with
theorems settling the specification's claims about them.

Conventions of the embedding:
  * uuid columns and timestamptz columns are both modelled by one monotone
    Nat counter, DB.nextId: each insert takes the current counter as its id
    and as its created_at, so ids are unique and created_at grows with
    insertion order, as gen_random_uuid() plus now() defaults give;
  * the loosely typed jsonb columns (details, permissions, metadata) are a
    JsonVal inductive;
  * supabase .maybeSingle() at the call sites that ignore the error object
    (write-helpers.ts, DocumentUploadForm, fasten-demo-sync agreement
    lookup) yields data exactly when the filtered result has one row, null
    otherwise (zero rows: no error, null data; two or more rows: an error
    the caller ignores, null data); .single() errors unless exactly one row
    and every caller maps that error to its not-found branch: both are the
    function singleRow;
  * row-level security from the migrations is a filter on user_id applied
    to every query, written into each read function.
-/

namespace Myb

/-- A jsonb value, as stored in the details, permissions and metadata
columns. -/
inductive JsonVal where
  | null
  | bool (b : Bool)
  | num (n : Int)
  | str (s : String)
  | arr (xs : List JsonVal)
  | obj (fields : List (String × JsonVal))

/-- First binding of a key in a JS object's fields (object keys are unique,
so first-match is the object's value at the key). -/
def lookupField : List (String × JsonVal) → String → Option JsonVal
  | [], _ => none
  | (k, v) :: rest, key => if k = key then some v else lookupField rest key

/-- getString from src/src/lib/event-details.ts: the value at the key when
the details value is a non-null object holding a string there, null in every
other case (null, non-object, missing key, non-string value). -/
def getString (details : JsonVal) (key : String) : Option String :=
  match details with
  | .obj fields =>
    match lookupField fields key with
    | some (.str s) => some s
    | _ => none
  | _ => none

/-- getOptionalString from event-details.ts, an alias of getString. -/
def getOptionalString (details : JsonVal) (key : String) : Option String :=
  getString details key

/-- getOptionalCategory from event-details.ts. -/
def getOptionalCategory (details : JsonVal) : Option String :=
  getString details "category"

/-- getDocumentArtifactId from event-details.ts. -/
def getDocumentArtifactId (details : JsonVal) : Option String :=
  getString details "document_artifact_id"

/-- getAmendsEventId from event-details.ts. -/
def getAmendsEventId (details : JsonVal) : Option String :=
  getString details "amends_event_id"

/-- getAmendedEventType from event-details.ts. -/
def getAmendedEventType (details : JsonVal) : Option String :=
  getString details "amended_event_type"

/-- getText from event-details.ts. -/
def getText (details : JsonVal) : Option String :=
  getString details "text"

/-- getDocType from event-details.ts. -/
def getDocType (details : JsonVal) : Option String :=
  getString details "doc_type"

/-- getNotes from event-details.ts. -/
def getNotes (details : JsonVal) : Option String :=
  getString details "notes"

/-- JS truthiness of a string: the empty string is falsy, so `a || b` on
strings yields b exactly when a is empty. -/
def jsOr (a b : String) : String := if a = "" then b else a

/-- JS `a || b` where a is a nullable string column value. -/
def jsOrOpt (a : Option String) (b : String) : String :=
  match a with
  | some s => jsOr s b
  | none => b

/-- JS `s || null` for a details field: null when the string is empty. -/
def strOrNull (s : String) : JsonVal :=
  if s = "" then .null else .str s

/-- The summary truncation used by JournalEntryForm.onSubmit and
AmendmentModal.handleJournalSubmit: text.slice(0, 140) plus an ellipsis
"..." appended exactly when text.length > 140. -/
def truncateSummary (text : String) : String :=
  String.mk (text.data.take 140) ++ (if 140 < text.length then "..." else "")

/-- A row of public.data_sources (first migration, plus the provider and
connection columns the Sources pages read and write). -/
structure DataSource where
  id : Nat
  user_id : String
  type : String
  name : String
  provider : Option String
  status : String
  connection_state : String
  last_sync_at : Option Nat
  last_sync_status : Option String
  last_error_code : Option String
  last_error_at : Option Nat
  created_at : Nat

/-- A row of public.consent_agreements. -/
structure ConsentAgreement where
  id : Nat
  user_id : String
  scope : String
  created_at : Nat

/-- A row of public.consent_snapshots. -/
structure ConsentSnapshot where
  id : Nat
  consent_agreement_id : Nat
  permissions : JsonVal
  created_at : Nat

/-- A row of public.provenance (captured_at defaults to now() when the
insert does not set it). -/
structure Provenance where
  id : Nat
  data_source_id : Nat
  method : String
  captured_at : Nat
  metadata : JsonVal
  created_at : Nat

/-- A row of public.timeline_events. -/
structure TimelineEvent where
  id : Nat
  user_id : String
  event_type : String
  event_time : Nat
  title : Option String
  summary : String
  details : JsonVal
  provenance_id : Nat
  consent_snapshot_id : Nat
  created_at : Nat

/-- A row of public.document_artifacts. -/
structure DocumentArtifact where
  id : Nat
  user_id : String
  title : Option String
  doc_type : Option String
  occurred_at : Option Nat
  storage_path : String
  content_type : String
  file_size : Option Nat
  original_filename : Option String
  provenance_id : Nat
  created_at : Nat

/-- A row of public.audit_events. -/
structure AuditEvent where
  id : Nat
  user_id : String
  action : String
  entity_type : String
  entity_id : Nat
  created_at : Nat

/-- A row of public.jobs. -/
structure Job where
  id : Nat
  user_id : String
  job_type : String
  status : String
  idempotency_key : String
  payload : JsonVal
  created_at : Nat

/-- The durable store: one list per table, plus the monotone counter that
supplies both fresh ids and created_at values (see the file comment). -/
structure DB where
  dataSources : List DataSource
  consentAgreements : List ConsentAgreement
  consentSnapshots : List ConsentSnapshot
  provenance : List Provenance
  timelineEvents : List TimelineEvent
  documentArtifacts : List DocumentArtifact
  auditEvents : List AuditEvent
  jobs : List Job
  nextId : Nat

/-- supabase .maybeSingle() with its error object ignored, and .single()
with its error mapped to the caller's not-found branch: data exactly when
the filtered result has one row. -/
def singleRow : List α → Option α
  | [x] => some x
  | _ => none

/-- Insertion into a list sorted descending by a Nat key (a new element goes
before the first strictly smaller key). -/
def insertDescBy (key : α → Nat) (x : α) : List α → List α
  | [] => [x]
  | y :: ys => if key y < key x then x :: y :: ys else y :: insertDescBy key x ys

/-- The store's ORDER BY key DESC. -/
def sortDescBy (key : α → Nat) : List α → List α
  | [] => []
  | x :: xs => insertDescBy key x (sortDescBy key xs)

/-- getOrCreateDataSource from src/src/lib/write-helpers.ts: look up the
exact (user_id, type, name); when absent insert a row with status "active".
The connection columns take the defaults of the migration that added them
(unnamed part_000): connection_state DEFAULT disconnected, the others NULL.
Returns the data source id with the updated store. -/
def getOrCreateDataSource (db : DB) (userId ty name : String) : Nat × DB :=
  match singleRow (db.dataSources.filter
      (fun d => d.user_id == userId && d.type == ty && d.name == name)) with
  | some existing => (existing.id, db)
  | none =>
      (db.nextId,
        { db with
          dataSources := db.dataSources ++
            [{ id := db.nextId, user_id := userId, type := ty, name := name,
               provider := none, status := "active",
               connection_state := "disconnected", last_sync_at := none,
               last_sync_status := none, last_error_code := none,
               last_error_at := none, created_at := db.nextId }],
          nextId := db.nextId + 1 })

/-- The default permissions object write-helpers.ts stores on a new consent
snapshot. -/
def defaultPermissions : JsonVal :=
  .obj [("store_health_data", .bool true), ("create_timeline_events", .bool true)]

/-- getOrCreateDefaultConsentSnapshot from src/src/lib/write-helpers.ts:
find the user's consent agreement (any scope), creating one with scope
"health_data_storage" when absent; then return the latest snapshot for that
agreement (ORDER BY created_at DESC LIMIT 1), creating one with the default
permissions when none exists. -/
def getOrCreateDefaultConsentSnapshot (db : DB) (userId : String) : Nat × DB :=
  let ag : Nat × DB :=
    match singleRow (db.consentAgreements.filter (fun a => a.user_id == userId)) with
    | some existing => (existing.id, db)
    | none =>
        (db.nextId,
          { db with
            consentAgreements := db.consentAgreements ++
              [{ id := db.nextId, user_id := userId,
                 scope := "health_data_storage", created_at := db.nextId }],
            nextId := db.nextId + 1 })
  let agreementId := ag.1
  let db1 : DB := ag.2
  match (sortDescBy (fun s => s.created_at)
      (db1.consentSnapshots.filter (fun s => s.consent_agreement_id == agreementId))).head? with
  | some existing => (existing.id, db1)
  | none =>
      (db1.nextId,
        { db1 with
          consentSnapshots := db1.consentSnapshots ++
            [{ id := db1.nextId, consent_agreement_id := agreementId,
               permissions := defaultPermissions, created_at := db1.nextId }],
          nextId := db1.nextId + 1 })

/-- JournalEntryForm.onSubmit (src/src/components/journal/JournalEntryForm.tsx):
resolve the "manual"/"User Journal" data source and the default consent
snapshot, insert a provenance row (method manual_entry), append one
journal_entry timeline event with the truncated summary, then append the
journal_created audit event. -/
def journalSubmit (db : DB) (userId title text category : String)
    (eventTime : Nat) : DB :=
  let r1 := getOrCreateDataSource db userId "manual" "User Journal"
  let dsId := r1.1
  let r2 := getOrCreateDefaultConsentSnapshot r1.2 userId
  let csId := r2.1
  let db2 : DB := r2.2
  let provId := db2.nextId
  let db3 : DB :=
    { db2 with
      provenance := db2.provenance ++
        [{ id := provId, data_source_id := dsId, method := "manual_entry",
           captured_at := provId,
           metadata := .obj [("client", .str "web"),
                             ("category", .str (jsOr category "other"))],
           created_at := provId }],
      nextId := db2.nextId + 1 }
  let evId := db3.nextId
  let db4 : DB :=
    { db3 with
      timelineEvents := db3.timelineEvents ++
        [{ id := evId, user_id := userId, event_type := "journal_entry",
           event_time := eventTime,
           title := some (jsOr title "Journal entry"),
           summary := truncateSummary text,
           details := .obj [("text", .str text),
                            ("category", .str (jsOr category "other"))],
           provenance_id := provId, consent_snapshot_id := csId,
           created_at := evId }],
      nextId := db3.nextId + 1 }
  let auId := db4.nextId
  { db4 with
    auditEvents := db4.auditEvents ++
      [{ id := auId, user_id := userId, action := "journal_created",
         entity_type := "timeline_event", entity_id := evId,
         created_at := auId }],
    nextId := db4.nextId + 1 }

/-- AmendmentModal.handleJournalSubmit (the modal component bundled in
src/src/components/documents/DocumentList.tsx): resolve the
"manual"/"User Journal Amendment" data source and the default consent
snapshot, insert a provenance row (method manual_amendment), append one
event_amended timeline event whose event_time is the submission time and
whose details point at the target event, then append the event_amended
audit event. The target event is the modal's event prop; the handler never
inspects its event_type. -/
def amendJournalSubmit (db : DB) (userId : String) (event : TimelineEvent)
    (title text category note : String) : DB :=
  let r1 := getOrCreateDataSource db userId "manual" "User Journal Amendment"
  let dsId := r1.1
  let r2 := getOrCreateDefaultConsentSnapshot r1.2 userId
  let csId := r2.1
  let db2 : DB := r2.2
  let provId := db2.nextId
  let db3 : DB :=
    { db2 with
      provenance := db2.provenance ++
        [{ id := provId, data_source_id := dsId, method := "manual_amendment",
           captured_at := provId,
           metadata := .obj [("client", .str "web"),
                             ("amendment_type", .str "journal")],
           created_at := provId }],
      nextId := db2.nextId + 1 }
  let evId := db3.nextId
  let db4 : DB :=
    { db3 with
      timelineEvents := db3.timelineEvents ++
        [{ id := evId, user_id := userId, event_type := "event_amended",
           event_time := evId,
           title := some ("Amended: " ++ jsOr title (jsOrOpt event.title "Journal entry")),
           summary := truncateSummary text,
           details := .obj [("amends_event_id", .str (toString event.id)),
                            ("amended_event_type", .str "journal_entry"),
                            ("text", .str text),
                            ("category", strOrNull category),
                            ("original_event_time", .str (toString event.event_time)),
                            ("note", strOrNull note)],
           provenance_id := provId, consent_snapshot_id := csId,
           created_at := evId }],
      nextId := db3.nextId + 1 }
  let auId := db4.nextId
  { db4 with
    auditEvents := db4.auditEvents ++
      [{ id := auId, user_id := userId, action := "event_amended",
         entity_type := "timeline_event", entity_id := evId,
         created_at := auId }],
    nextId := db4.nextId + 1 }

/-- The DOC_TYPE label tables shared by the upload form and the amendment
modal. -/
def docTypeLabel (docType : String) : String :=
  if docType == "lab" then "Lab Results"
  else if docType == "imaging" then "Imaging"
  else if docType == "visit_summary" then "Visit Summary"
  else if docType == "medication" then "Medication"
  else if docType == "insurance" then "Insurance"
  else if docType == "other" then "Other"
  else docType

/-- AmendmentModal.handleDocumentSubmit: like the journal amendment but with
the "manual"/"Document Amendment" data source, document metadata details and
a fixed-form summary. -/
def amendDocumentSubmit (db : DB) (userId : String) (event : TimelineEvent)
    (title docType notes documentDate : String) : DB :=
  let r1 := getOrCreateDataSource db userId "manual" "Document Amendment"
  let dsId := r1.1
  let r2 := getOrCreateDefaultConsentSnapshot r1.2 userId
  let csId := r2.1
  let db2 : DB := r2.2
  let provId := db2.nextId
  let db3 : DB :=
    { db2 with
      provenance := db2.provenance ++
        [{ id := provId, data_source_id := dsId, method := "manual_amendment",
           captured_at := provId,
           metadata := .obj [("client", .str "web"),
                             ("amendment_type", .str "document")],
           created_at := provId }],
      nextId := db2.nextId + 1 }
  let evId := db3.nextId
  let artifactId := getDocumentArtifactId event.details
  let db4 : DB :=
    { db3 with
      timelineEvents := db3.timelineEvents ++
        [{ id := evId, user_id := userId, event_type := "event_amended",
           event_time := evId,
           title := some ("Amended: " ++ title),
           summary := "Updated " ++ jsOr (docTypeLabel docType) "document" ++ " details",
           details := .obj [("amends_event_id", .str (toString event.id)),
                            ("amended_event_type", .str "document_uploaded"),
                            ("document_artifact_id",
                              match artifactId with
                              | some a => .str a
                              | none => .null),
                            ("title", .str title),
                            ("doc_type", .str docType),
                            ("notes", strOrNull notes),
                            ("document_date", .str documentDate)],
           provenance_id := provId, consent_snapshot_id := csId,
           created_at := evId }],
      nextId := db3.nextId + 1 }
  let auId := db4.nextId
  { db4 with
    auditEvents := db4.auditEvents ++
      [{ id := auId, user_id := userId, action := "event_amended",
         entity_type := "timeline_event", entity_id := evId,
         created_at := auId }],
    nextId := db4.nextId + 1 }

/-- Filename sanitisation of DocumentUploadForm.onSubmit:
name.replace(/[^a-zA-Z0-9.-]/g, "_"). -/
def safeFilename (name : String) : String :=
  String.mk (name.data.map
    (fun c => if c.isAlphanum || c == '.' || c == '-' then c else '_'))

/-- DocumentUploadForm.onSubmit (the upload form bundled in
src/src/components/journal/JournalEntryForm.tsx), the store part: after the
blob upload it resolves the "upload"/"User Upload" data source inline,
inserts a provenance row (method upload), inserts the document artifact,
resolves the consent snapshot inline (same logic as the write helper),
appends one document_uploaded timeline event and the document_uploaded
audit event. -/
def uploadDocument (db : DB) (userId title docType notes filename contentType : String)
    (documentDate fileSize : Nat) : DB :=
  let storagePath := userId ++ "/" ++ toString db.nextId ++ "-" ++ safeFilename filename
  let r1 := getOrCreateDataSource db userId "upload" "User Upload"
  let dsId := r1.1
  let db1 : DB := r1.2
  let provId := db1.nextId
  let db2 : DB :=
    { db1 with
      provenance := db1.provenance ++
        [{ id := provId, data_source_id := dsId, method := "upload",
           captured_at := provId,
           metadata := .obj [("doc_type", .str docType),
                             ("mime", .str contentType),
                             ("size_bytes", .num (Int.ofNat fileSize))],
           created_at := provId }],
      nextId := db1.nextId + 1 }
  let artId := db2.nextId
  let db3 : DB :=
    { db2 with
      documentArtifacts := db2.documentArtifacts ++
        [{ id := artId, user_id := userId, title := some title,
           doc_type := some docType, occurred_at := some documentDate,
           storage_path := storagePath, content_type := contentType,
           file_size := some fileSize, original_filename := some filename,
           provenance_id := provId, created_at := artId }],
      nextId := db2.nextId + 1 }
  let r2 := getOrCreateDefaultConsentSnapshot db3 userId
  let csId := r2.1
  let db4 : DB := r2.2
  let evId := db4.nextId
  let db5 : DB :=
    { db4 with
      timelineEvents := db4.timelineEvents ++
        [{ id := evId, user_id := userId, event_type := "document_uploaded",
           event_time := documentDate, title := some title,
           summary := "Uploaded " ++ docTypeLabel docType ++ " document",
           details := .obj [("document_artifact_id", .str (toString artId)),
                            ("doc_type", .str docType),
                            ("notes", strOrNull notes)],
           provenance_id := provId, consent_snapshot_id := csId,
           created_at := evId }],
      nextId := db4.nextId + 1 }
  let auId := db5.nextId
  { db5 with
    auditEvents := db5.auditEvents ++
      [{ id := auId, user_id := userId, action := "document_uploaded",
         entity_type := "document_artifact", entity_id := artId,
         created_at := auId }],
    nextId := db5.nextId + 1 }

/-- Timeline.handleCreateSummary (the timeline page in the unnamed sources):
resolve the "manual"/"User Curated" data source and the default consent
snapshot, insert a provenance row (method manual_entry, no explicit
metadata), append one visit_summary timeline event referencing the selected
event ids, then append the visit_summary_created audit event. -/
def createVisitSummary (db : DB) (userId title summary label : String)
    (eventIds : List Nat) (dateStart dateEnd : String) : DB :=
  let r1 := getOrCreateDataSource db userId "manual" "User Curated"
  let dsId := r1.1
  let r2 := getOrCreateDefaultConsentSnapshot r1.2 userId
  let csId := r2.1
  let db2 : DB := r2.2
  let provId := db2.nextId
  let db3 : DB :=
    { db2 with
      provenance := db2.provenance ++
        [{ id := provId, data_source_id := dsId, method := "manual_entry",
           captured_at := provId, metadata := .obj [],
           created_at := provId }],
      nextId := db2.nextId + 1 }
  let evId := db3.nextId
  let db4 : DB :=
    { db3 with
      timelineEvents := db3.timelineEvents ++
        [{ id := evId, user_id := userId, event_type := "visit_summary",
           event_time := evId, title := some title, summary := summary,
           details := .obj [("referenced_event_ids",
                              .arr (eventIds.map (fun i => .str (toString i)))),
                            ("date_range_start", .str dateStart),
                            ("date_range_end", .str dateEnd),
                            ("label", strOrNull label)],
           provenance_id := provId, consent_snapshot_id := csId,
           created_at := evId }],
      nextId := db3.nextId + 1 }
  let auId := db4.nextId
  { db4 with
    auditEvents := db4.auditEvents ++
      [{ id := auId, user_id := userId, action := "visit_summary_created",
         entity_type := "timeline_event", entity_id := evId,
         created_at := auId }],
    nextId := db4.nextId + 1 }

/-- Sources.addSourceMutation (the sources page in the unnamed sources):
insert a data source (status pending, connection_state disconnected) and the
source_added audit event. -/
def addSource (db : DB) (userId ty name provider : String) : DB :=
  let srcId := db.nextId
  let db1 : DB :=
    { db with
      dataSources := db.dataSources ++
        [{ id := srcId, user_id := userId, type := ty, name := name,
           provider := some provider, status := "pending",
           connection_state := "disconnected", last_sync_at := none,
           last_sync_status := none, last_error_code := none,
           last_error_at := none, created_at := srcId }],
      nextId := db.nextId + 1 }
  let auId := db1.nextId
  { db1 with
    auditEvents := db1.auditEvents ++
      [{ id := auId, user_id := userId, action := "source_added",
         entity_type := "data_source", entity_id := srcId,
         created_at := auId }],
    nextId := db1.nextId + 1 }

/-- SourceDetails.syncMutation (the source details page in the unnamed
sources), used for non-Fasten sources: insert a pending
source_sync_requested job, update connection_state to connected when the
action is connect (the update is scoped to the caller's own row by the
row-level-security update policy), then append the source_sync_requested
audit event. -/
def sourceAction (db : DB) (userId : String) (sourceId : Nat)
    (action : String) : DB :=
  let jobId := db.nextId
  let db1 : DB :=
    { db with
      jobs := db.jobs ++
        [{ id := jobId, user_id := userId, job_type := "source_sync_requested",
           status := "pending",
           idempotency_key := toString sourceId ++ "-" ++ action ++ "-" ++ toString jobId,
           payload := .obj [("source_id", .str (toString sourceId)),
                            ("action", .str action)],
           created_at := jobId }],
      nextId := db.nextId + 1 }
  let db2 : DB :=
    if action == "connect" then
      { db1 with
        dataSources := db1.dataSources.map
          (fun d => if d.id == sourceId && d.user_id == userId then
              { d with connection_state := "connected" } else d) }
    else db1
  let auId := db2.nextId
  { db2 with
    auditEvents := db2.auditEvents ++
      [{ id := auId, user_id := userId, action := "source_sync_requested",
         entity_type := "data_source", entity_id := sourceId,
         created_at := auId }],
    nextId := db2.nextId + 1 }

/-- The outcome of the fasten-demo-sync edge function. -/
inductive FastenResult where
  | notFound
  | success (importedCount : Nat)

/-- The six DEMO_EVENTS of supabase/functions/fasten-demo-sync/index.ts as
timeline event rows: occurredAt offsets are in days before now, details are
the fixed external payload. -/
def demoEventRows (userId : String) (provId csId now baseId : Nat) :
    List TimelineEvent :=
  let mk := fun (k : Nat) (cat title summary provider : String) (daysAgo : Nat) =>
    ({ id := baseId + k, user_id := userId, event_type := "external_event",
       event_time := now - daysAgo, title := some title, summary := summary,
       details := .obj [("source", .str "fasten"),
                        ("resource_category", .str cat),
                        ("provider_name", .str provider),
                        ("is_demo", .bool true)],
       provenance_id := provId, consent_snapshot_id := csId,
       created_at := baseId + k } : TimelineEvent)
  [mk 0 "encounter" "Annual Physical Examination"
      "Routine annual physical with Dr. Smith at City Medical Center. General health assessment completed."
      "City Medical Center" 30,
   mk 1 "lab_results" "Complete Blood Count (CBC)"
      "Standard blood panel completed. Results within normal ranges."
      "LabCorp" 28,
   mk 2 "lab_results" "Lipid Panel"
      "Cholesterol and triglyceride levels measured. Reviewed by primary care physician."
      "LabCorp" 28,
   mk 3 "medication" "Medication Prescription - Lisinopril"
      "Prescription for blood pressure management. 10mg daily dosage."
      "City Medical Center" 25,
   mk 4 "encounter" "Follow-up Visit"
      "Follow-up consultation to review lab results and adjust treatment plan."
      "City Medical Center" 14,
   mk 5 "document_reference" "Imaging Report - Chest X-Ray"
      "Chest X-ray performed for routine screening. No abnormalities detected."
      "City Medical Imaging" 7]

/-- The fasten-demo-sync edge function
(supabase/functions/fasten-demo-sync/index.ts): verify the source belongs to
the caller (404 otherwise), get or create the health_data consent agreement,
always insert a fresh consent snapshot, insert a portal_import provenance,
insert the six demo external_event rows, overwrite the source's connection
fields (connected / last_sync ok / errors cleared), append the
external_events_imported audit event, and answer with the imported count.
The handler never inspects the source's connection_state. -/
def fastenDemoSync (db : DB) (userId : String) (sourceId : Nat)
    (now : Nat) : FastenResult × DB :=
  match singleRow (db.dataSources.filter
      (fun d => d.id == sourceId && d.user_id == userId)) with
  | none => (.notFound, db)
  | some _src =>
    let ag : Nat × DB :=
      match singleRow (db.consentAgreements.filter
          (fun a => a.user_id == userId && a.scope == "health_data")) with
      | some existing => (existing.id, db)
      | none =>
          (db.nextId,
            { db with
              consentAgreements := db.consentAgreements ++
                [{ id := db.nextId, user_id := userId, scope := "health_data",
                   created_at := db.nextId }],
              nextId := db.nextId + 1 })
    let agreementId := ag.1
    let db1 : DB := ag.2
    let csId := db1.nextId
    let db2 : DB :=
      { db1 with
        consentSnapshots := db1.consentSnapshots ++
          [{ id := csId, consent_agreement_id := agreementId,
             permissions := .obj [("external_import", .bool true),
                                  ("source", .str "fasten"),
                                  ("authorized_at", .num (Int.ofNat now))],
             created_at := csId }],
        nextId := db1.nextId + 1 }
    let provId := db2.nextId
    let db3 : DB :=
      { db2 with
        provenance := db2.provenance ++
          [{ id := provId, data_source_id := sourceId, method := "portal_import",
             captured_at := provId,
             metadata := .obj [("source", .str "fasten"),
                               ("sync_type", .str "demo"),
                               ("synced_at", .num (Int.ofNat now))],
             created_at := provId }],
        nextId := db2.nextId + 1 }
    let rows := demoEventRows userId provId csId now db3.nextId
    let db4 : DB :=
      { db3 with
        timelineEvents := db3.timelineEvents ++ rows,
        nextId := db3.nextId + 6 }
    let db5 : DB :=
      { db4 with
        dataSources := db4.dataSources.map
          (fun d => if d.id == sourceId && d.user_id == userId then
              { d with connection_state := "connected",
                       last_sync_at := some now,
                       last_sync_status := some "ok",
                       last_error_code := none,
                       last_error_at := none } else d) }
    let auId := db5.nextId
    let db6 : DB :=
      { db5 with
        auditEvents := db5.auditEvents ++
          [{ id := auId, user_id := userId, action := "external_events_imported",
             entity_type := "data_source", entity_id := sourceId,
             created_at := auId }],
        nextId := db5.nextId + 1 }
    (.success rows.length, db6)

/-- SourceDetails.handleAction: the client action dispatched for a source.
Fasten sources (provider fasten) always run the demo sync; other sources
dispatch on connection_state, and disconnected maps to connect, never to
sync. -/
inductive ClientAction where
  | fastenSync
  | connect
  | sync
  | retry
  | nothing

/-- The dispatch of SourceDetails.handleAction over the loaded source's
provider and connection_state. -/
def handleActionChoice (provider : Option String) (connectionState : String) :
    ClientAction :=
  if provider == some "fasten" then .fastenSync
  else if connectionState == "disconnected" then .connect
  else if connectionState == "connected" then .sync
  else if connectionState == "error" then .retry
  else .nothing

/-- Whether pat occurs at the head of l. -/
def matchesAt : List Char → List Char → Bool
  | [], _ => true
  | _ :: _, [] => false
  | p :: ps, c :: cs => p == c && matchesAt ps cs

/-- Split a character list at the first occurrence of pat: the part before
the occurrence and the part after it, none when pat never occurs. -/
def splitAtOcc (l pat : List Char) : Option (List Char × List Char) :=
  match l with
  | [] => if matchesAt pat [] then some ([], []) else none
  | c :: cs =>
    if matchesAt pat l then some ([], l.drop pat.length)
    else
      match splitAtOcc cs pat with
      | some (pre, post) => some (c :: pre, post)
      | none => none

/-- JS String.prototype.replace with a string pattern: replace the first
occurrence only (latestAmendment.title?.replace("Amended: ", "")). -/
def replaceFirst (s pat rep : String) : String :=
  match splitAtOcc s.data pat.data with
  | some (pre, post) => String.mk (pre ++ rep.data ++ post)
  | none => s

/-- The timeline page query (unnamed Timeline source): the caller's own
events (row-level security), ORDER BY event_time DESC. -/
def listForUser (db : DB) (uid : String) : List TimelineEvent :=
  sortDescBy (fun e => e.event_time)
    (db.timelineEvents.filter (fun e => e.user_id == uid))

/-- Timeline.filteredEvents with the journal filter: events whose event_type
is journal_entry. -/
def filterJournal (events : List TimelineEvent) : List TimelineEvent :=
  events.filter (fun e => e.event_type == "journal_entry")

/-- The EventDetails event query: SELECT * WHERE id = i under row-level
security, .single(); its error is rendered as the event-not-found state. -/
def getEventById (db : DB) (uid : String) (i : Nat) : Option TimelineEvent :=
  singleRow ((db.timelineEvents.filter (fun e => e.user_id == uid)).filter
    (fun e => e.id == i))

/-- The outcome of the documents-download edge function for an
authenticated caller. -/
inductive DownloadResult where
  | file (storagePath contentType filename : String)
  | notFound
  | serverError

/-- The Content-Disposition filename of documents-download:
original_filename.replace(/[^\w-. ]/g, "_"), or "document" when the column
is null. -/
def downloadFilename (original : Option String) : String :=
  match original with
  | some f => String.mk (f.data.map
      (fun c => if c.isAlphanum || c == '_' || c == '-' || c == '.' || c == ' '
        then c else '_'))
  | none => "document"

/-- The documents-download edge function
(supabase/functions/documents-download/index.ts) after authentication: query
the artifact by id and by the caller's user id (.maybeSingle()); a database
error answers 500, no row answers 404 Document not found, one row streams
the blob with the sanitised attachment filename. -/
def documentsDownload (db : DB) (uid : String) (artifactId : Nat) :
    DownloadResult :=
  match db.documentArtifacts.filter
      (fun a => a.id == artifactId && a.user_id == uid) with
  | [] => .notFound
  | [a] => .file a.storage_path a.content_type (downloadFilename a.original_filename)
  | _ => .serverError

/-- The EventDetails amendments query of the variant that computes the
current view: the caller's event_amended events (row-level security) ORDER
BY event_time DESC, then the client-side filter keeping those whose
details.amends_event_id equals the viewed event's id. -/
def amendmentsQuery (db : DB) (uid : String) (i : Nat) : List TimelineEvent :=
  (sortDescBy (fun e => e.event_time)
      ((db.timelineEvents.filter (fun e => e.user_id == uid)).filter
        (fun e => e.event_type == "event_amended"))).filter
    (fun e => getAmendsEventId e.details == some (toString i))

/-- The latest amendment EventDetails uses: the first element of the
amendments query result. -/
def latestAmendment (db : DB) (uid : String) (i : Nat) : Option TimelineEvent :=
  (amendmentsQuery db uid i).head?

/-- The current-view fields EventDetails renders. -/
structure CurrentView where
  text : Option String
  category : Option String
  title : Option String
  docType : Option String
  notes : Option String

/-- The currentView* values of EventDetails (the variant with the fold):
with a latest amendment every field is read from that amendment alone (title
from its title column with the first "Amended: " removed); with none, from
the original event. -/
def currentView (db : DB) (uid : String) (event : TimelineEvent) : CurrentView :=
  match latestAmendment db uid event.id with
  | some a =>
      { text := getText a.details,
        category := getOptionalCategory a.details,
        title := a.title.map (fun t => replaceFirst t "Amended: " ""),
        docType := getDocType a.details,
        notes := getNotes a.details }
  | none =>
      { text := getText event.details,
        category := getOptionalCategory event.details,
        title := event.title,
        docType := getDocType event.details,
        notes := getNotes event.details }

/-- canAmend of EventDetails: the amend control is rendered only for
journal_entry and document_uploaded events. -/
def canAmend (eventType : String) : Bool :=
  eventType == "journal_entry" || eventType == "document_uploaded"

/-- One write operation of the system: every code path that writes to the
store. -/
inductive Op where
  | journal (userId title text category : String) (eventTime : Nat)
  | amendJournal (userId : String) (target : TimelineEvent)
      (title text category note : String)
  | amendDocument (userId : String) (target : TimelineEvent)
      (title docType notes documentDate : String)
  | upload (userId title docType notes filename contentType : String)
      (documentDate fileSize : Nat)
  | visitSummary (userId title summary label : String) (eventIds : List Nat)
      (dateStart dateEnd : String)
  | newSource (userId ty name provider : String)
  | srcAction (userId : String) (sourceId : Nat) (action : String)
  | fastenSync (userId : String) (sourceId : Nat) (now : Nat)

/-- Apply one write operation to the store. -/
def applyOp (db : DB) : Op → DB
  | .journal u t x c et => journalSubmit db u t x c et
  | .amendJournal u ev t x c n => amendJournalSubmit db u ev t x c n
  | .amendDocument u ev t d n dd => amendDocumentSubmit db u ev t d n dd
  | .upload u t d n f ct dd fs => uploadDocument db u t d n f ct dd fs
  | .visitSummary u t s l ids ds de => createVisitSummary db u t s l ids ds de
  | .newSource u ty n p => addSource db u ty n p
  | .srcAction u sid a => sourceAction db u sid a
  | .fastenSync u sid now => (fastenDemoSync db u sid now).2

/-- Apply a sequence of write operations in order. -/
def applyOps (db : DB) : List Op → DB
  | [] => db
  | op :: rest => applyOps (applyOp db op) rest

/-- Re-read a timeline event by id (any later time, any reader-independent
identity check: the row itself). -/
def findEventById (db : DB) (i : Nat) : Option TimelineEvent :=
  db.timelineEvents.find? (fun e => e.id == i)

/-- Re-read a consent snapshot by id. -/
def findSnapshotById (db : DB) (i : Nat) : Option ConsentSnapshot :=
  db.consentSnapshots.find? (fun s => s.id == i)

/-- Re-read an audit event by id. -/
def findAuditById (db : DB) (i : Nat) : Option AuditEvent :=
  db.auditEvents.find? (fun a => a.id == i)

/-- Re-read a provenance row by id. -/
def findProvenanceById (db : DB) (i : Nat) : Option Provenance :=
  db.provenance.find? (fun p => p.id == i)

/-- db extends base when each append-only table of db is the corresponding
table of base with rows appended after it. -/
def ExtendsDB (base db : DB) : Prop :=
  (∃ l, db.timelineEvents = base.timelineEvents ++ l) ∧
  (∃ l, db.consentSnapshots = base.consentSnapshots ++ l) ∧
  (∃ l, db.auditEvents = base.auditEvents ++ l) ∧
  (∃ l, db.provenance = base.provenance ++ l)

/-- An empty store with the id counter at 100 (so fresh ids never collide
with the hand-written example rows below). -/
def emptyDB : DB :=
  { dataSources := [], consentAgreements := [], consentSnapshots := [],
    provenance := [], timelineEvents := [], documentArtifacts := [],
    auditEvents := [], jobs := [], nextId := 100 }

/-- Example original journal event: title A, details text x. -/
def exOrig : TimelineEvent :=
  { id := 1, user_id := "u", event_type := "journal_entry", event_time := 1,
    title := some "A", summary := "x",
    details := .obj [("text", .str "x"), ("category", .str "other")],
    provenance_id := 90, consent_snapshot_id := 91, created_at := 1 }

/-- Example first amendment of exOrig (created at 5): details text y, no
title change payload. -/
def exAmend1 : TimelineEvent :=
  { id := 2, user_id := "u", event_type := "event_amended", event_time := 5,
    title := some "Amended: A", summary := "y",
    details := .obj [("amends_event_id", .str "1"),
                     ("amended_event_type", .str "journal_entry"),
                     ("text", .str "y")],
    provenance_id := 92, consent_snapshot_id := 91, created_at := 5 }

/-- Example second amendment of exOrig (created at 10 > 5): title B, no text
field in its details. -/
def exAmend2 : TimelineEvent :=
  { id := 3, user_id := "u", event_type := "event_amended", event_time := 10,
    title := some "Amended: B", summary := "retitled",
    details := .obj [("amends_event_id", .str "1"),
                     ("amended_event_type", .str "journal_entry")],
    provenance_id := 93, consent_snapshot_id := 91, created_at := 10 }

/-- Store with exOrig amended twice, for the amendment-fold claims. -/
def exDb2 : DB := { emptyDB with timelineEvents := [exOrig, exAmend1, exAmend2] }

/-- Amendment filed first (created_at 5) but carrying the later event_time
20. -/
def exB1 : TimelineEvent :=
  { id := 2, user_id := "u", event_type := "event_amended", event_time := 20,
    title := some "Amended: first", summary := "first correction",
    details := .obj [("amends_event_id", .str "1"),
                     ("amended_event_type", .str "journal_entry"),
                     ("text", .str "first")],
    provenance_id := 92, consent_snapshot_id := 91, created_at := 5 }

/-- Amendment filed last (created_at 10) but carrying the earlier event_time
3. -/
def exB2 : TimelineEvent :=
  { id := 3, user_id := "u", event_type := "event_amended", event_time := 3,
    title := some "Amended: second", summary := "second correction",
    details := .obj [("amends_event_id", .str "1"),
                     ("amended_event_type", .str "journal_entry"),
                     ("text", .str "second")],
    provenance_id := 93, consent_snapshot_id := 91, created_at := 10 }

/-- Store where created_at order and event_time order disagree on the two
amendments of event 1. -/
def exDb3 : DB := { emptyDB with timelineEvents := [exOrig, exB1, exB2] }

/-- Example visit_summary event, a type the spec says cannot be amended. -/
def exVisit : TimelineEvent :=
  { id := 7, user_id := "u", event_type := "visit_summary", event_time := 7,
    title := some "Visit", summary := "a visit summary",
    details := .obj [("referenced_event_ids", .arr [])],
    provenance_id := 90, consent_snapshot_id := 91, created_at := 7 }

/-- Store holding only the visit summary. -/
def exDb4 : DB := { emptyDB with timelineEvents := [exVisit] }

/-- A timeline event owned by alice. -/
def aliceEvent : TimelineEvent :=
  { id := 50, user_id := "alice", event_type := "journal_entry",
    event_time := 50, title := some "mine", summary := "alice only",
    details := .obj [("text", .str "alice only"), ("category", .str "other")],
    provenance_id := 90, consent_snapshot_id := 91, created_at := 50 }

/-- A document artifact owned by alice. -/
def aliceArtifact : DocumentArtifact :=
  { id := 60, user_id := "alice", title := some "labs",
    doc_type := some "lab", occurred_at := some 49,
    storage_path := "alice/60-labs.pdf", content_type := "application/pdf",
    file_size := some 1000, original_filename := some "labs.pdf",
    provenance_id := 90, created_at := 50 }

/-- Store holding alice's event and artifact, for the ownership-isolation
claim. -/
def exDb5 : DB :=
  { emptyDB with timelineEvents := [aliceEvent],
                 documentArtifacts := [aliceArtifact] }

/-- A disconnected Fasten demo source owned by u. -/
def exSource : DataSource :=
  { id := 20, user_id := "u", type := "external_api",
    name := "Patient-Authorized External Records (Demo)",
    provider := some "fasten", status := "pending",
    connection_state := "disconnected", last_sync_at := none,
    last_sync_status := none, last_error_code := none, last_error_at := none,
    created_at := 20 }

/-- Store holding only the disconnected Fasten source. -/
def exDb6 : DB := { emptyDB with dataSources := [exSource] }

/-- A 141-character text, one character over the summary bound. -/
def longText141 : String := String.mk (List.replicate 141 'a')

/-- A store reached sequentially from exDb6 by one journal write followed
by one Fasten demo sync: the journal write creates the user's
health_data_storage consent agreement, the sync then creates a second
agreement for the same user with scope health_data (its lookup filters on
that scope and finds nothing), so the user ends up with two consent
agreements and two snapshots. -/
def exDb7 : DB :=
  applyOps exDb6 [.journal "u" "T" "hello" "symptom" 42,
                  .fastenSync "u" 20 1000]

theorem singleRow_mem {α : Type} {l : List α} {a : α}
    (h : singleRow l = some a) : a ∈ l := by
  cases l with
  | nil => simp [singleRow] at h
  | cons x xs =>
    cases xs with
    | nil => simp [singleRow] at h; simp [h]
    | cons y ys => simp [singleRow] at h

theorem find_append_of_some {α : Type} {p : α → Bool} {l1 : List α}
    (l2 : List α) {a : α} (h : l1.find? p = some a) :
    (l1 ++ l2).find? p = some a := by
  induction l1 with
  | nil => simp [List.find?] at h
  | cons x xs ih =>
    rw [List.cons_append]
    cases hx : p x with
    | true =>
      rw [List.find?_cons_of_pos _ hx] at h ⊢
      exact h
    | false =>
      rw [List.find?_cons_of_neg _ (by simp [hx])] at h ⊢
      exact ih h

theorem mem_insertDescBy {α : Type} {key : α → Nat} {x a : α} {l : List α} :
    a ∈ insertDescBy key x l ↔ a = x ∨ a ∈ l := by
  induction l with
  | nil => simp [insertDescBy]
  | cons y ys ih =>
    by_cases h : key y < key x
    · simp [insertDescBy, h]
    · simp only [insertDescBy, if_neg h, List.mem_cons, ih]
      tauto

theorem perm_insertDescBy {α : Type} (key : α → Nat) (x : α) (l : List α) :
    List.Perm (insertDescBy key x l) (x :: l) := by
  induction l with
  | nil => simp [insertDescBy]
  | cons y ys ih =>
    by_cases h : key y < key x
    · simp [insertDescBy, h]
    · rw [insertDescBy, if_neg h]
      exact (List.Perm.cons y ih).trans (List.Perm.swap x y ys)

theorem perm_sortDescBy {α : Type} (key : α → Nat) (l : List α) :
    List.Perm (sortDescBy key l) l := by
  induction l with
  | nil => simp [sortDescBy]
  | cons x xs ih =>
    exact (perm_insertDescBy key x (sortDescBy key xs)).trans
      (List.Perm.cons x ih)

theorem pairwise_insertDescBy {α : Type} {key : α → Nat} {x : α} {l : List α}
    (h : l.Pairwise (fun a b => key b ≤ key a)) :
    (insertDescBy key x l).Pairwise (fun a b => key b ≤ key a) := by
  induction l with
  | nil => simp [insertDescBy]
  | cons y ys ih =>
    rcases List.pairwise_cons.mp h with ⟨hy, hys⟩
    by_cases hk : key y < key x
    · rw [insertDescBy, if_pos hk]
      refine List.pairwise_cons.mpr ⟨?_, h⟩
      intro b hb
      rcases List.mem_cons.mp hb with hb | hb
      · exact hb ▸ Nat.le_of_lt hk
      · exact Nat.le_trans (hy b hb) (Nat.le_of_lt hk)
    · rw [insertDescBy, if_neg hk]
      refine List.pairwise_cons.mpr ⟨?_, ih hys⟩
      intro b hb
      rcases mem_insertDescBy.mp hb with hb | hb
      · exact hb ▸ Nat.le_of_not_lt hk
      · exact hy b hb

theorem pairwise_sortDescBy {α : Type} (key : α → Nat) (l : List α) :
    (sortDescBy key l).Pairwise (fun a b => key b ≤ key a) := by
  induction l with
  | nil => simp [sortDescBy]
  | cons x xs ih => exact pairwise_insertDescBy ih

theorem filter_eq_nil_of {α : Type} {p : α → Bool} {l : List α}
    (h : ∀ a ∈ l, p a = false) : l.filter p = [] := by
  induction l with
  | nil => rfl
  | cons x xs ih =>
    rw [List.filter_cons, h x (List.mem_cons_self x xs)]
    simpa using ih (fun a ha => h a (List.mem_cons_of_mem x ha))

theorem mem_of_head_some {α : Type} {l : List α} {a : α}
    (h : l.head? = some a) : a ∈ l := by
  cases l with
  | nil => cases h
  | cons x xs =>
    rw [List.head?_cons] at h
    injection h with h
    simp [h]

theorem gocds_timelineEvents (db : DB) (u t n : String) :
    (getOrCreateDataSource db u t n).2.timelineEvents = db.timelineEvents := by
  unfold getOrCreateDataSource
  split <;> rfl

theorem gocds_consentSnapshots (db : DB) (u t n : String) :
    (getOrCreateDataSource db u t n).2.consentSnapshots = db.consentSnapshots := by
  unfold getOrCreateDataSource
  split <;> rfl

theorem gocds_auditEvents (db : DB) (u t n : String) :
    (getOrCreateDataSource db u t n).2.auditEvents = db.auditEvents := by
  unfold getOrCreateDataSource
  split <;> rfl

theorem gocds_provenance (db : DB) (u t n : String) :
    (getOrCreateDataSource db u t n).2.provenance = db.provenance := by
  unfold getOrCreateDataSource
  split <;> rfl

theorem gocds_consentAgreements (db : DB) (u t n : String) :
    (getOrCreateDataSource db u t n).2.consentAgreements = db.consentAgreements := by
  unfold getOrCreateDataSource
  split <;> rfl

theorem gocds_documentArtifacts (db : DB) (u t n : String) :
    (getOrCreateDataSource db u t n).2.documentArtifacts = db.documentArtifacts := by
  unfold getOrCreateDataSource
  split <;> rfl

theorem gocds_jobs (db : DB) (u t n : String) :
    (getOrCreateDataSource db u t n).2.jobs = db.jobs := by
  unfold getOrCreateDataSource
  split <;> rfl

theorem gocds_dataSources_grow (db : DB) (u t n : String) :
    ∃ l, (getOrCreateDataSource db u t n).2.dataSources = db.dataSources ++ l := by
  unfold getOrCreateDataSource
  split
  · exact ⟨[], by simp⟩
  · exact ⟨_, rfl⟩

theorem gocds_row (db : DB) (u t n : String) :
    ∃ d, d ∈ (getOrCreateDataSource db u t n).2.dataSources ∧
      d.id = (getOrCreateDataSource db u t n).1 ∧
      d.user_id = u ∧ d.type = t ∧ d.name = n := by
  unfold getOrCreateDataSource
  split
  next x h =>
    have hx := singleRow_mem h
    rw [List.mem_filter] at hx
    obtain ⟨hmem, hp⟩ := hx
    simp only [Bool.and_eq_true, beq_iff_eq] at hp
    exact ⟨x, hmem, rfl, hp.1.1, hp.1.2, hp.2⟩
  next h =>
    exact ⟨_, List.mem_append_right _ (List.mem_singleton_self _), rfl, rfl, rfl, rfl⟩

theorem gocdcs_timelineEvents (db : DB) (u : String) :
    (getOrCreateDefaultConsentSnapshot db u).2.timelineEvents = db.timelineEvents := by
  unfold getOrCreateDefaultConsentSnapshot
  split <;> (dsimp only; split <;> rfl)

theorem gocdcs_auditEvents (db : DB) (u : String) :
    (getOrCreateDefaultConsentSnapshot db u).2.auditEvents = db.auditEvents := by
  unfold getOrCreateDefaultConsentSnapshot
  split <;> (dsimp only; split <;> rfl)

theorem gocdcs_provenance (db : DB) (u : String) :
    (getOrCreateDefaultConsentSnapshot db u).2.provenance = db.provenance := by
  unfold getOrCreateDefaultConsentSnapshot
  split <;> (dsimp only; split <;> rfl)

theorem gocdcs_dataSources (db : DB) (u : String) :
    (getOrCreateDefaultConsentSnapshot db u).2.dataSources = db.dataSources := by
  unfold getOrCreateDefaultConsentSnapshot
  split <;> (dsimp only; split <;> rfl)

theorem gocdcs_documentArtifacts (db : DB) (u : String) :
    (getOrCreateDefaultConsentSnapshot db u).2.documentArtifacts = db.documentArtifacts := by
  unfold getOrCreateDefaultConsentSnapshot
  split <;> (dsimp only; split <;> rfl)

theorem gocdcs_jobs (db : DB) (u : String) :
    (getOrCreateDefaultConsentSnapshot db u).2.jobs = db.jobs := by
  unfold getOrCreateDefaultConsentSnapshot
  split <;> (dsimp only; split <;> rfl)

theorem gocdcs_consentSnapshots_grow (db : DB) (u : String) :
    ∃ l, (getOrCreateDefaultConsentSnapshot db u).2.consentSnapshots
      = db.consentSnapshots ++ l := by
  unfold getOrCreateDefaultConsentSnapshot
  split <;> (dsimp only; split)
  all_goals first
    | exact ⟨_, rfl⟩
    | exact ⟨[], by simp⟩

theorem gocdcs_row (db : DB) (u : String) :
    ∃ c, c ∈ (getOrCreateDefaultConsentSnapshot db u).2.consentSnapshots ∧
      c.id = (getOrCreateDefaultConsentSnapshot db u).1 := by
  unfold getOrCreateDefaultConsentSnapshot
  split <;> (dsimp only; split)
  all_goals first
    | exact ⟨_, List.mem_append_right _ (List.mem_singleton_self _), rfl⟩
    | (rename_i sn h
       have hmem := mem_of_head_some h
       have hm2 := (perm_sortDescBy (fun s : ConsentSnapshot => s.created_at) _).mem_iff.mp hmem
       rw [List.mem_filter] at hm2
       exact ⟨sn, hm2.1, rfl⟩)

theorem extendsDB_refl (db : DB) : ExtendsDB db db :=
  ⟨⟨[], (List.append_nil _).symm⟩, ⟨[], (List.append_nil _).symm⟩,
   ⟨[], (List.append_nil _).symm⟩, ⟨[], (List.append_nil _).symm⟩⟩

theorem extendsDB_trans {a b c : DB} (h1 : ExtendsDB a b)
    (h2 : ExtendsDB b c) : ExtendsDB a c := by
  obtain ⟨⟨l1, e1⟩, ⟨l2, e2⟩, ⟨l3, e3⟩, ⟨l4, e4⟩⟩ := h1
  obtain ⟨⟨m1, f1⟩, ⟨m2, f2⟩, ⟨m3, f3⟩, ⟨m4, f4⟩⟩ := h2
  exact ⟨⟨l1 ++ m1, by rw [f1, e1, List.append_assoc]⟩,
         ⟨l2 ++ m2, by rw [f2, e2, List.append_assoc]⟩,
         ⟨l3 ++ m3, by rw [f3, e3, List.append_assoc]⟩,
         ⟨l4 ++ m4, by rw [f4, e4, List.append_assoc]⟩⟩

theorem extends_journalSubmit (db : DB) (u t x c : String) (et : Nat) :
    ExtendsDB db (journalSubmit db u t x c et) := by
  unfold ExtendsDB
  refine ⟨?_, ?_, ?_, ?_⟩
  · simp only [journalSubmit]
    rw [gocdcs_timelineEvents]
    try dsimp only
    rw [gocds_timelineEvents]
    exact ⟨_, rfl⟩
  · simp only [journalSubmit]
    obtain ⟨l, hl⟩ := gocdcs_consentSnapshots_grow
      (getOrCreateDataSource db u "manual" "User Journal").2 u
    rw [hl, gocds_consentSnapshots]
    exact ⟨_, rfl⟩
  · simp only [journalSubmit]
    rw [gocdcs_auditEvents]
    try dsimp only
    rw [gocds_auditEvents]
    exact ⟨_, rfl⟩
  · simp only [journalSubmit]
    rw [gocdcs_provenance]
    try dsimp only
    rw [gocds_provenance]
    exact ⟨_, rfl⟩

theorem extends_amendJournalSubmit (db : DB) (u : String) (ev : TimelineEvent)
    (t x c n : String) : ExtendsDB db (amendJournalSubmit db u ev t x c n) := by
  unfold ExtendsDB
  refine ⟨?_, ?_, ?_, ?_⟩
  · simp only [amendJournalSubmit]
    rw [gocdcs_timelineEvents]
    try dsimp only
    rw [gocds_timelineEvents]
    exact ⟨_, rfl⟩
  · simp only [amendJournalSubmit]
    obtain ⟨l, hl⟩ := gocdcs_consentSnapshots_grow
      (getOrCreateDataSource db u "manual" "User Journal Amendment").2 u
    rw [hl, gocds_consentSnapshots]
    exact ⟨_, rfl⟩
  · simp only [amendJournalSubmit]
    rw [gocdcs_auditEvents]
    try dsimp only
    rw [gocds_auditEvents]
    exact ⟨_, rfl⟩
  · simp only [amendJournalSubmit]
    rw [gocdcs_provenance]
    try dsimp only
    rw [gocds_provenance]
    exact ⟨_, rfl⟩

theorem extends_amendDocumentSubmit (db : DB) (u : String) (ev : TimelineEvent)
    (t d n dd : String) : ExtendsDB db (amendDocumentSubmit db u ev t d n dd) := by
  unfold ExtendsDB
  refine ⟨?_, ?_, ?_, ?_⟩
  · simp only [amendDocumentSubmit]
    rw [gocdcs_timelineEvents]
    try dsimp only
    rw [gocds_timelineEvents]
    exact ⟨_, rfl⟩
  · simp only [amendDocumentSubmit]
    obtain ⟨l, hl⟩ := gocdcs_consentSnapshots_grow
      (getOrCreateDataSource db u "manual" "Document Amendment").2 u
    rw [hl, gocds_consentSnapshots]
    exact ⟨_, rfl⟩
  · simp only [amendDocumentSubmit]
    rw [gocdcs_auditEvents]
    try dsimp only
    rw [gocds_auditEvents]
    exact ⟨_, rfl⟩
  · simp only [amendDocumentSubmit]
    rw [gocdcs_provenance]
    try dsimp only
    rw [gocds_provenance]
    exact ⟨_, rfl⟩

theorem extends_uploadDocument (db : DB) (u t d n f ct : String)
    (dd fs : Nat) : ExtendsDB db (uploadDocument db u t d n f ct dd fs) := by
  unfold ExtendsDB
  refine ⟨?_, ?_, ?_, ?_⟩
  · simp only [uploadDocument]
    rw [gocdcs_timelineEvents]
    try dsimp only
    rw [gocds_timelineEvents]
    exact ⟨_, rfl⟩
  · simp only [uploadDocument]
    obtain ⟨l, hl⟩ := gocdcs_consentSnapshots_grow
      ({ (getOrCreateDataSource db u "upload" "User Upload").2 with
         provenance := _, nextId := _, documentArtifacts := _ }) u
    rw [hl]
    try dsimp only
    rw [gocds_consentSnapshots]
    exact ⟨_, rfl⟩
  · simp only [uploadDocument]
    rw [gocdcs_auditEvents]
    try dsimp only
    rw [gocds_auditEvents]
    exact ⟨_, rfl⟩
  · simp only [uploadDocument]
    rw [gocdcs_provenance]
    try dsimp only
    rw [gocds_provenance]
    exact ⟨_, rfl⟩

theorem extends_createVisitSummary (db : DB) (u t s l : String)
    (ids : List Nat) (ds de : String) :
    ExtendsDB db (createVisitSummary db u t s l ids ds de) := by
  unfold ExtendsDB
  refine ⟨?_, ?_, ?_, ?_⟩
  · simp only [createVisitSummary]
    rw [gocdcs_timelineEvents]
    try dsimp only
    rw [gocds_timelineEvents]
    exact ⟨_, rfl⟩
  · simp only [createVisitSummary]
    obtain ⟨m, hm⟩ := gocdcs_consentSnapshots_grow
      (getOrCreateDataSource db u "manual" "User Curated").2 u
    rw [hm, gocds_consentSnapshots]
    exact ⟨_, rfl⟩
  · simp only [createVisitSummary]
    rw [gocdcs_auditEvents]
    try dsimp only
    rw [gocds_auditEvents]
    exact ⟨_, rfl⟩
  · simp only [createVisitSummary]
    rw [gocdcs_provenance]
    try dsimp only
    rw [gocds_provenance]
    exact ⟨_, rfl⟩

theorem extends_addSource (db : DB) (u ty n p : String) :
    ExtendsDB db (addSource db u ty n p) := by
  unfold ExtendsDB
  refine ⟨⟨[], by simp [addSource]⟩, ⟨[], by simp [addSource]⟩,
          ?_, ⟨[], by simp [addSource]⟩⟩
  simp only [addSource]
  exact ⟨_, rfl⟩

theorem extends_sourceAction (db : DB) (u : String) (sid : Nat) (a : String) :
    ExtendsDB db (sourceAction db u sid a) := by
  unfold ExtendsDB
  refine ⟨?_, ?_, ?_, ?_⟩ <;> simp only [sourceAction] <;> split <;>
    first
      | exact ⟨_, rfl⟩
      | exact ⟨[], (List.append_nil _).symm⟩

theorem extends_fastenDemoSync (db : DB) (u : String) (sid now : Nat) :
    ExtendsDB db (fastenDemoSync db u sid now).2 := by
  unfold ExtendsDB
  refine ⟨?_, ?_, ?_, ?_⟩ <;> simp only [fastenDemoSync] <;> split <;>
    (try dsimp only) <;> (try split) <;>
    first
      | exact ⟨_, rfl⟩
      | exact ⟨[], (List.append_nil _).symm⟩

theorem extends_applyOp (db : DB) (op : Op) : ExtendsDB db (applyOp db op) := by
  cases op with
  | journal u t x c et => exact extends_journalSubmit db u t x c et
  | amendJournal u ev t x c n => exact extends_amendJournalSubmit db u ev t x c n
  | amendDocument u ev t d n dd => exact extends_amendDocumentSubmit db u ev t d n dd
  | upload u t d n f ct dd fs => exact extends_uploadDocument db u t d n f ct dd fs
  | visitSummary u t s l ids ds de => exact extends_createVisitSummary db u t s l ids ds de
  | newSource u ty n p => exact extends_addSource db u ty n p
  | srcAction u sid a => exact extends_sourceAction db u sid a
  | fastenSync u sid now => exact extends_fastenDemoSync db u sid now

theorem extends_applyOps (ops : List Op) (db : DB) :
    ExtendsDB db (applyOps db ops) := by
  induction ops generalizing db with
  | nil => exact extendsDB_refl db
  | cons op rest ih =>
    exact extendsDB_trans (extends_applyOp db op) (ih (applyOp db op))

theorem amendJournalSubmit_events (db : DB) (u : String) (ev : TimelineEvent)
    (t x c n : String) :
    ∃ a, (amendJournalSubmit db u ev t x c n).timelineEvents
        = db.timelineEvents ++ [a] ∧
      a.event_type = "event_amended" ∧
      getAmendsEventId a.details = some (toString ev.id) ∧
      a.summary = truncateSummary x := by
  simp only [amendJournalSubmit]
  rw [gocdcs_timelineEvents]
  try dsimp only
  rw [gocds_timelineEvents]
  exact ⟨_, rfl, rfl, rfl, rfl⟩

/-- The event journalSubmit appends, with links into the final store: the
shape lemma behind the journal claims. -/
theorem journalSubmit_spec (db : DB) (u t x c : String) (et : Nat) :
    ∃ ev : TimelineEvent,
      (journalSubmit db u t x c et).timelineEvents = db.timelineEvents ++ [ev] ∧
      ev.user_id = u ∧ ev.event_type = "journal_entry" ∧
      ev.event_time = et ∧ ev.summary = truncateSummary x ∧
      ev.details = .obj [("text", .str x), ("category", .str (jsOr c "other"))] ∧
      ev.title = some (jsOr t "Journal entry") ∧
      (∃ p ∈ (journalSubmit db u t x c et).provenance,
        p.id = ev.provenance_id ∧ p.method = "manual_entry" ∧
        ∃ d ∈ (journalSubmit db u t x c et).dataSources,
          d.id = p.data_source_id ∧ d.user_id = u ∧ d.type = "manual" ∧
          d.name = "User Journal") ∧
      (∃ cs ∈ (journalSubmit db u t x c et).consentSnapshots,
        cs.id = ev.consent_snapshot_id) ∧
      (∃ au ∈ (journalSubmit db u t x c et).auditEvents,
        au.user_id = u ∧ au.action = "journal_created" ∧
        au.entity_type = "timeline_event" ∧ au.entity_id = ev.id) := by
  obtain ⟨d, hd_mem, hd_id, hd_u, hd_t, hd_n⟩ :=
    gocds_row db u "manual" "User Journal"
  obtain ⟨cs, hcs_mem, hcs_id⟩ :=
    gocdcs_row (getOrCreateDataSource db u "manual" "User Journal").2 u
  simp only [journalSubmit]
  rw [gocdcs_timelineEvents, gocds_timelineEvents, gocdcs_provenance,
      gocdcs_dataSources, gocdcs_auditEvents, gocds_auditEvents]
  refine ⟨_, rfl, rfl, rfl, rfl, rfl, rfl, rfl, ?_, ?_, ?_⟩
  · exact ⟨_, List.mem_append_right _ (List.mem_singleton_self _), rfl, rfl,
      d, hd_mem, hd_id, hd_u, hd_t, hd_n⟩
  · exact ⟨cs, hcs_mem, hcs_id⟩
  · exact ⟨_, List.mem_append_right _ (List.mem_singleton_self _),
      rfl, rfl, rfl, rfl⟩

/-- C1: no operation of the system updates or deletes a TimelineEvent,
ConsentSnapshot, AuditEvent or Provenance row: after any sequence of writes,
a row found by id before is found unchanged after, so re-reading at two
different times yields the identical record. -/
theorem append_only_log (ops : List Op) (db : DB) (i : Nat) :
    (∀ e, findEventById db i = some e →
      findEventById (applyOps db ops) i = some e) ∧
    (∀ c, findSnapshotById db i = some c →
      findSnapshotById (applyOps db ops) i = some c) ∧
    (∀ a, findAuditById db i = some a →
      findAuditById (applyOps db ops) i = some a) ∧
    (∀ p, findProvenanceById db i = some p →
      findProvenanceById (applyOps db ops) i = some p) := by
  obtain ⟨⟨l1, e1⟩, ⟨l2, e2⟩, ⟨l3, e3⟩, ⟨l4, e4⟩⟩ := extends_applyOps ops db
  refine ⟨fun e h => ?_, fun c h => ?_, fun a h => ?_, fun p h => ?_⟩
  · unfold findEventById at h ⊢
    rw [e1]
    exact find_append_of_some _ h
  · unfold findSnapshotById at h ⊢
    rw [e2]
    exact find_append_of_some _ h
  · unfold findAuditById at h ⊢
    rw [e3]
    exact find_append_of_some _ h
  · unfold findProvenanceById at h ⊢
    rw [e4]
    exact find_append_of_some _ h

/-- C10: the details accessor getString is total and returns exactly the
stored string: it yields some s precisely when the details value is an
object holding the string s at the key, and null (none) for null values,
non-objects, missing keys and non-string values; getText,
getOptionalCategory, getAmendsEventId and getOptionalString are getString
at their fixed keys. -/
theorem getString_total_correct (d : JsonVal) (k s : String) :
    (getString d k = some s ↔
      ∃ fields, d = JsonVal.obj fields ∧
        lookupField fields k = some (JsonVal.str s)) ∧
    getText d = getString d "text" ∧
    getOptionalCategory d = getString d "category" ∧
    getAmendsEventId d = getString d "amends_event_id" ∧
    getOptionalString d k = getString d k := by
  refine ⟨?_, rfl, rfl, rfl, rfl⟩
  cases d with
  | obj fields =>
    simp only [getString]
    cases hf : lookupField fields k with
    | none => simp [hf]
    | some v => cases v <;> simp [hf]
  | null => simp [getString]
  | bool b => simp [getString]
  | num n => simp [getString]
  | str t => simp [getString]
  | arr xs => simp [getString]

set_option maxRecDepth 4000 in
/-- C9 counterexample: a 141-character entry text is stored with a summary
of 143 characters (140 kept plus the three-character ellipsis), so the
claimed bound of at most 140 characters fails. -/
theorem summary_length_cex :
    longText141.length = 141 ∧
    (truncateSummary longText141).length = 143 ∧
    ¬ (truncateSummary longText141).length ≤ 140 := by
  refine ⟨by decide, by decide, by decide⟩

/-- C9 amended: the stored summary for entry text t equals t when t has at
most 140 characters; otherwise it is the first 140 characters followed by
"...", so its length is 143 (over the claimed 140); it is never empty for
non-empty t; and the journal write path stores exactly this summary on the
event it appends. -/
theorem journal_summary_truncation (t : String) :
    (t.length ≤ 140 → truncateSummary t = t) ∧
    (truncateSummary t).length ≤ 143 ∧
    (140 < t.length → (truncateSummary t).length = 143) ∧
    (t ≠ "" → truncateSummary t ≠ "") ∧
    (∀ (db : DB) (u title c : String) (et : Nat),
      ∃ ev, (journalSubmit db u title t c et).timelineEvents
          = db.timelineEvents ++ [ev] ∧ ev.summary = truncateSummary t) := by
  obtain ⟨l⟩ := t
  have hdata : (String.mk l).data = l := rfl
  have hlen : (String.mk l).length = l.length := rfl
  refine ⟨?_, ?_, ?_, ?_, ?_⟩
  · intro h
    rw [hlen] at h
    unfold truncateSummary
    rw [hdata, if_neg (Nat.not_lt.mpr (hlen ▸ h)), List.take_of_length_le h]
    show String.mk (l ++ []) = String.mk l
    rw [List.append_nil]
  · unfold truncateSummary
    rw [hdata]
    by_cases h : 140 < (String.mk l).length
    · rw [if_pos h]
      show (l.take 140 ++ ['.', '.', '.']).length ≤ 143
      simp only [List.length_append, List.length_take, List.length_cons,
        List.length_nil]
      omega
    · rw [if_neg h]
      show (l.take 140 ++ []).length ≤ 143
      simp only [List.length_append, List.length_take, List.length_nil]
      omega
  · intro h
    unfold truncateSummary
    rw [hdata, if_pos h]
    rw [hlen] at h
    show (l.take 140 ++ ['.', '.', '.']).length = 143
    simp only [List.length_append, List.length_take, List.length_cons,
      List.length_nil]
    omega
  · intro h hcontra
    apply h
    unfold truncateSummary at hcontra
    rw [hdata] at hcontra
    by_cases hc : 140 < (String.mk l).length
    · rw [if_pos hc] at hcontra
      have : (l.take 140 ++ ['.', '.', '.']) = [] := congrArg String.data hcontra
      simp at this
    · rw [if_neg hc] at hcontra
      have h2 : (l.take 140 ++ []) = [] := congrArg String.data hcontra
      rw [List.append_nil] at h2
      rw [hlen] at hc
      have h3 : l = [] := by
        have h4 := List.take_of_length_le (Nat.le_of_not_lt hc) (l := l)
        rw [h4] at h2
        exact h2
      rw [h3]
  · intro db u title c et
    obtain ⟨ev, hev, _, _, _, hsum, _⟩ := journalSubmit_spec db u title (String.mk l) c et
    exact ⟨ev, hev, hsum⟩

/-- C4 counterexample: invoking the amendment submit handler on a
visit_summary event does not fail — no InvalidAmendmentTarget error exists
anywhere in the code — and it appends an event_amended event to the log. -/
theorem amend_visit_summary_cex :
    ((amendJournalSubmit exDb4 "u" exVisit "T" "corrected" "" "").timelineEvents.map
      (fun e => e.event_type)) = ["visit_summary", "event_amended"] ∧
    canAmend "visit_summary" = false := by
  exact ⟨rfl, rfl⟩

/-- C4 amended: amending is gated in the interface, not by an error: the
amend control is rendered exactly when canAmend holds, i.e. the event's
type is journal_entry or document_uploaded (so event_amended, visit_summary
and external_event events offer no amend action); no InvalidAmendmentTarget
error exists, and the submit handler itself checks nothing — on any target
event it appends exactly one event_amended event referencing it. -/
theorem canAmend_gate_and_unchecked_submit :
    (∀ et : String, canAmend et = true ↔
      (et = "journal_entry" ∨ et = "document_uploaded")) ∧
    (∀ (db : DB) (u : String) (ev : TimelineEvent) (t x c n : String),
      ∃ a, (amendJournalSubmit db u ev t x c n).timelineEvents
          = db.timelineEvents ++ [a] ∧
        a.event_type = "event_amended" ∧
        getAmendsEventId a.details = some (toString ev.id)) := by
  constructor
  · intro et
    simp [canAmend]
  · intro db u ev t x c n
    obtain ⟨a, ha, hty, hid, _⟩ := amendJournalSubmit_events db u ev t x c n
    exact ⟨a, ha, hty, hid⟩

/-- C2 counterexample: original event with title A and text x, amended at
time 5 with text y and at time 10 with only a new title B: the current view
the code computes is title B with text null — the text field does not fall
back to the original's x (nor to the intermediate amendment's y). -/
theorem currentView_fallback_cex :
    (currentView exDb2 "u" exOrig).title = some "B" ∧
    (currentView exDb2 "u" exOrig).text = none ∧
    (currentView exDb2 "u" exOrig).text ≠ some "x" ∧
    getText exOrig.details = some "x" := by
  refine ⟨rfl, rfl, ?_, rfl⟩
  intro h
  have hnone : (currentView exDb2 "u" exOrig).text = none := rfl
  rw [hnone] at h
  cases h

/-- C2 amended: when a latest amendment exists, every current-view field is
read from that amendment alone — text, category, doc_type and notes through
the details accessors (absent fields therefore become null, never the
original's or an intermediate amendment's value) and title from the
amendment's title column with the first "Amended: " occurrence removed;
only when no amendment exists does the view equal the original's fields. -/
theorem currentView_from_latest_only (db : DB) (uid : String)
    (ev : TimelineEvent) :
    (∀ a, latestAmendment db uid ev.id = some a →
      currentView db uid ev =
        { text := getText a.details,
          category := getOptionalCategory a.details,
          title := a.title.map (fun t => replaceFirst t "Amended: " ""),
          docType := getDocType a.details,
          notes := getNotes a.details }) ∧
    (latestAmendment db uid ev.id = none →
      currentView db uid ev =
        { text := getText ev.details,
          category := getOptionalCategory ev.details,
          title := ev.title,
          docType := getDocType ev.details,
          notes := getNotes ev.details }) := by
  constructor
  · intro a ha
    unfold currentView
    rw [ha]
  · intro ha
    unfold currentView
    rw [ha]

theorem amendmentsQuery_pairwise (db : DB) (uid : String) (i : Nat) :
    (amendmentsQuery db uid i).Pairwise
      (fun a b => b.event_time ≤ a.event_time) := by
  unfold amendmentsQuery
  exact (pairwise_sortDescBy _ _).sublist (List.filter_sublist _)

theorem mem_amendmentsQuery {db : DB} {uid : String} {i : Nat}
    {b : TimelineEvent} :
    b ∈ amendmentsQuery db uid i ↔
      (b ∈ db.timelineEvents ∧ b.user_id = uid ∧
       b.event_type = "event_amended" ∧
       getAmendsEventId b.details = some (toString i)) := by
  unfold amendmentsQuery
  rw [List.mem_filter, (perm_sortDescBy _ _).mem_iff, List.mem_filter,
    List.mem_filter]
  simp only [beq_iff_eq, and_assoc]

/-- C3 counterexample: two amendments of event 1 where filing order and
event_time order disagree — exB1 filed first (created_at 5) but with
event_time 20, exB2 filed last (created_at 10) with event_time 3: the code
selects exB1 as the latest amendment, although exB2 has the higher
created_at, so selection is by event_time, not created_at. -/
theorem latest_by_event_time_cex :
    latestAmendment exDb3 "u" 1 = some exB1 ∧
    exB2 ∈ amendmentsQuery exDb3 "u" 1 ∧
    exB1.created_at < exB2.created_at := by
  refine ⟨rfl, ?_, by decide⟩
  show exB2 ∈ [exB1, exB2]
  exact List.mem_cons_of_mem _ (List.mem_singleton_self _)

/-- C3 amended: the latest amendment the current view uses is selected by
event_time descending, not created_at: it is a referencing amendment of the
user whose event_time is maximal among all events of type event_amended
whose details.amends_event_id equals the viewed event's id (the second
variant of the page orders by created_at but computes no current view). -/
theorem latestAmendment_max_event_time (db : DB) (uid : String) (i : Nat)
    (a : TimelineEvent) (h : latestAmendment db uid i = some a) :
    a ∈ db.timelineEvents ∧ a.user_id = uid ∧
    a.event_type = "event_amended" ∧
    getAmendsEventId a.details = some (toString i) ∧
    (∀ b ∈ db.timelineEvents, b.user_id = uid →
      b.event_type = "event_amended" →
      getAmendsEventId b.details = some (toString i) →
      b.event_time ≤ a.event_time) := by
  unfold latestAmendment at h
  have hmem := mem_of_head_some h
  have hprops := mem_amendmentsQuery.mp hmem
  refine ⟨hprops.1, hprops.2.1, hprops.2.2.1, hprops.2.2.2, ?_⟩
  intro b hb hbu hbt hba
  have hbmem : b ∈ amendmentsQuery db uid i :=
    mem_amendmentsQuery.mpr ⟨hb, hbu, hbt, hba⟩
  have hpw := amendmentsQuery_pairwise db uid i
  cases hq : amendmentsQuery db uid i with
  | nil => rw [hq] at h; cases h
  | cons x xs =>
    rw [hq] at h hpw hbmem
    rw [List.head?_cons] at h
    injection h with h
    subst h
    rcases List.mem_cons.mp hbmem with hb1 | hb1
    · rw [hb1]
    · exact (List.pairwise_cons.mp hpw).1 b hb1

/-- Witness for the amended latest-amendment selection at the concrete
store exDb3: exB1 (event_time 20) is selected and bounds every referencing
amendment's event_time. -/
theorem latestAmendment_max_event_time_witness :
    exB1 ∈ exDb3.timelineEvents ∧ exB1.user_id = "u" ∧
    exB1.event_type = "event_amended" ∧
    getAmendsEventId exB1.details = some (toString 1) ∧
    (∀ b ∈ exDb3.timelineEvents, b.user_id = "u" →
      b.event_type = "event_amended" →
      getAmendsEventId b.details = some (toString 1) →
      b.event_time ≤ exB1.event_time) :=
  latestAmendment_max_event_time exDb3 "u" 1 exB1 rfl

theorem getEventById_none_of_no_match (db : DB) (B : String) (i : Nat)
    (h : ∀ e ∈ db.timelineEvents, e.user_id = B → e.id ≠ i) :
    getEventById db B i = none := by
  unfold getEventById
  have hfil : (db.timelineEvents.filter (fun e => e.user_id == B)).filter
      (fun e => e.id == i) = [] := by
    apply filter_eq_nil_of
    intro e he
    rw [List.mem_filter] at he
    have hu : e.user_id = B := by
      have := he.2
      rwa [beq_iff_eq] at this
    exact beq_eq_false_iff_ne.mpr (h e he.1 hu)
  rw [hfil]
  rfl

theorem documentsDownload_notFound_of_no_match (db : DB) (B : String) (i : Nat)
    (h : ∀ a ∈ db.documentArtifacts, a.user_id = B → a.id ≠ i) :
    documentsDownload db B i = .notFound := by
  unfold documentsDownload
  have hfil : db.documentArtifacts.filter
      (fun a => a.id == i && a.user_id == B) = [] := by
    apply filter_eq_nil_of
    intro a ha
    cases hid : a.id == i with
    | false => simp
    | true =>
      cases hu : a.user_id == B with
      | false => simp [hu]
      | true =>
        exfalso
        exact h a ha (beq_iff_eq.mp hu) (beq_iff_eq.mp hid)
  rw [hfil]

/-- C5: ownership isolation — for users A and B with A distinct from B, a
lookup of a timeline event id owned by A performed as B yields the
not-found outcome, and so does the documents-download proxy for an artifact
id owned by A; both behave identically to looking up an id that exists
nowhere at all. -/
theorem getById_ownership_isolation (db : DB) (A B : String) (i : Nat)
    (hAB : A ≠ B)
    (hev : ∀ e ∈ db.timelineEvents, e.id = i → e.user_id = A)
    (hart : ∀ a ∈ db.documentArtifacts, a.id = i → a.user_id = A) :
    getEventById db B i = none ∧
    documentsDownload db B i = .notFound ∧
    (∀ j, (∀ e ∈ db.timelineEvents, e.id ≠ j) → getEventById db B j = none) ∧
    (∀ j, (∀ a ∈ db.documentArtifacts, a.id ≠ j) →
      documentsDownload db B j = .notFound) := by
  refine ⟨?_, ?_, ?_, ?_⟩
  · apply getEventById_none_of_no_match
    intro e he hu hi
    exact hAB ((hev e he hi).symm.trans hu)
  · apply documentsDownload_notFound_of_no_match
    intro a ha hu hi
    exact hAB ((hart a ha hi).symm.trans hu)
  · intro j hj
    apply getEventById_none_of_no_match
    intro e he _ hi
    exact hj e he hi
  · intro j hj
    apply documentsDownload_notFound_of_no_match
    intro a ha _ hi
    exact hj a ha hi

/-- Witness for ownership isolation at the concrete store exDb5: bob cannot
read alice's event 50 or artifact 60, and absent ids behave the same. -/
theorem getById_ownership_isolation_witness :
    (getEventById exDb5 "bob" 50 = none ∧
     documentsDownload exDb5 "bob" 50 = .notFound ∧
     (∀ j, (∀ e ∈ exDb5.timelineEvents, e.id ≠ j) →
       getEventById exDb5 "bob" j = none) ∧
     (∀ j, (∀ a ∈ exDb5.documentArtifacts, a.id ≠ j) →
       documentsDownload exDb5 "bob" j = .notFound)) ∧
    (getEventById exDb5 "alice" 50 ≠ none) :=
  ⟨getById_ownership_isolation exDb5 "alice" "bob" 50 (by decide)
      (by intro e he hi; simp [exDb5, emptyDB] at he; rw [he]; rfl)
      (by intro a ha hi; simp [exDb5, emptyDB] at ha; rw [ha]; rfl),
   by intro h; rw [(rfl : getEventById exDb5 "alice" 50 = some aliceEvent)] at h; cases h⟩

/-- C6 counterexample: a demo sync requested on the disconnected Fasten
source succeeds with six imported events, rewrites the source's
connection_state to connected and appends six timeline events — there is no
InvalidTransition error and the DataSource row does not stay unchanged. -/
theorem sync_while_disconnected_cex :
    exSource.connection_state = "disconnected" ∧
    (fastenDemoSync exDb6 "u" 20 1000).1 = FastenResult.success 6 ∧
    ((fastenDemoSync exDb6 "u" 20 1000).2.dataSources.map
      (fun d => d.connection_state)) = ["connected"] ∧
    (fastenDemoSync exDb6 "u" 20 1000).2.timelineEvents.length = 6 := by
  exact ⟨rfl, rfl, rfl, rfl⟩

/-- C6 amended: no InvalidTransition error exists. The demo sync handler
checks ownership but never connection_state: requested on any source of the
caller — including one whose connection_state is disconnected — it succeeds
with six imported external_event rows and overwrites the source's
connection fields (connected, last_sync ok, errors cleared). For non-Fasten
sources the interface never issues sync from disconnected: handleAction
maps disconnected to connect. -/
theorem fasten_sync_ignores_connection_state (db : DB) (u : String)
    (sid now : Nat) (src : DataSource)
    (h : singleRow (db.dataSources.filter
      (fun d => d.id == sid && d.user_id == u)) = some src) :
    (fastenDemoSync db u sid now).1 = FastenResult.success 6 ∧
    (∃ l, (fastenDemoSync db u sid now).2.timelineEvents
        = db.timelineEvents ++ l ∧ l.length = 6 ∧
        ∀ e ∈ l, e.event_type = "external_event") ∧
    (∃ d ∈ (fastenDemoSync db u sid now).2.dataSources,
      d.id = src.id ∧ d.connection_state = "connected" ∧
      d.last_sync_at = some now ∧ d.last_sync_status = some "ok" ∧
      d.last_error_code = none ∧ d.last_error_at = none) ∧
    handleActionChoice (some "fasten") "disconnected" = ClientAction.fastenSync ∧
    handleActionChoice none "disconnected" = ClientAction.connect := by
  have hsrc := singleRow_mem h
  rw [List.mem_filter] at hsrc
  obtain ⟨hsrc_mem, hsrc_p⟩ := hsrc
  simp only [fastenDemoSync]
  rw [h]
  try dsimp only
  split <;>
  · refine ⟨rfl, ⟨_, rfl, rfl, ?_⟩, ?_, rfl, rfl⟩
    · intro e he
      simp only [demoEventRows, List.mem_cons, List.not_mem_nil, or_false] at he
      rcases he with h1 | h1 | h1 | h1 | h1 | h1 <;> rw [h1]
    · refine ⟨_, List.mem_map_of_mem _ hsrc_mem, ?_⟩
      rw [if_pos hsrc_p]
      exact ⟨rfl, rfl, rfl, rfl, rfl, rfl⟩

/-- Witness for the amended sync behaviour at the concrete disconnected
source exSource. -/
theorem fasten_sync_ignores_connection_state_witness :
    (fastenDemoSync exDb6 "u" 20 1000).1 = FastenResult.success 6 ∧
    (∃ l, (fastenDemoSync exDb6 "u" 20 1000).2.timelineEvents
        = exDb6.timelineEvents ++ l ∧ l.length = 6 ∧
        ∀ e ∈ l, e.event_type = "external_event") ∧
    (∃ d ∈ (fastenDemoSync exDb6 "u" 20 1000).2.dataSources,
      d.id = exSource.id ∧ d.connection_state = "connected" ∧
      d.last_sync_at = some 1000 ∧ d.last_sync_status = some "ok" ∧
      d.last_error_code = none ∧ d.last_error_at = none) ∧
    handleActionChoice (some "fasten") "disconnected" = ClientAction.fastenSync ∧
    handleActionChoice none "disconnected" = ClientAction.connect :=
  fasten_sync_ignores_connection_state exDb6 "u" 20 1000 exSource rfl

theorem singleRow_eq_singleton {α : Type} {l : List α} {a : α}
    (h : singleRow l = some a) : l = [a] := by
  cases l with
  | nil => simp [singleRow] at h
  | cons x xs =>
    cases xs with
    | nil => simp [singleRow] at h; rw [h]
    | cons y ys => simp [singleRow] at h

theorem singleRow_none_of_le_one {α : Type} {l : List α}
    (h : singleRow l = none) (hle : l.length ≤ 1) : l = [] := by
  cases l with
  | nil => rfl
  | cons x xs =>
    cases xs with
    | nil => simp [singleRow] at h
    | cons y ys => simp at hle

theorem sortDescBy_head_none {α : Type} {k : α → Nat} {l : List α}
    (h : (sortDescBy k l).head? = none) : l = [] := by
  have h1 : sortDescBy k l = [] := List.head?_eq_none_iff.mp h
  have h2 := (perm_sortDescBy k l).length_eq
  rw [h1] at h2
  exact List.length_eq_zero.mp h2.symm

theorem gocds_idem (db : DB) (u k n : String)
    (hds : (db.dataSources.filter
      (fun d => d.user_id == u && d.type == k && d.name == n)).length ≤ 1) :
    (getOrCreateDataSource (getOrCreateDataSource db u k n).2 u k n).1
      = (getOrCreateDataSource db u k n).1 ∧
    ((getOrCreateDataSource (getOrCreateDataSource db u k n).2 u k n).2.dataSources.filter
      (fun d => d.user_id == u && d.type == k && d.name == n)).length = 1 := by
  cases hcase : singleRow (db.dataSources.filter
      (fun d => d.user_id == u && d.type == k && d.name == n)) with
  | some x =>
    have hfil := singleRow_eq_singleton hcase
    have h1 : getOrCreateDataSource db u k n = (x.id, db) := by
      unfold getOrCreateDataSource
      rw [hcase]
    rw [h1]
    try dsimp only
    rw [h1]
    try dsimp only
    rw [hfil]
    exact ⟨rfl, rfl⟩
  | none =>
    have hnil := singleRow_none_of_le_one hcase hds
    unfold getOrCreateDataSource
    rw [hcase]
    try dsimp only
    rw [List.filter_append, hnil]
    simp only [List.nil_append, List.filter_cons, beq_self_eq_true,
      Bool.and_self, if_true, List.filter_nil, singleRow]
    refine ⟨trivial, ?_⟩
    rw [List.filter_append, hnil]
    simp

theorem gocdcs_idem (db : DB) (u : String)
    (hag : (db.consentAgreements.filter (fun a => a.user_id == u)).length ≤ 1)
    (hfresh : ∀ sn ∈ db.consentSnapshots, sn.consent_agreement_id < db.nextId) :
    (getOrCreateDefaultConsentSnapshot
        (getOrCreateDefaultConsentSnapshot db u).2 u).1
      = (getOrCreateDefaultConsentSnapshot db u).1 := by
  cases hagc : singleRow (db.consentAgreements.filter
      (fun a => a.user_id == u)) with
  | some ag =>
    cases hsn : (sortDescBy (fun s : ConsentSnapshot => s.created_at)
        (db.consentSnapshots.filter
          (fun s => s.consent_agreement_id == ag.id))).head? with
    | some sn =>
      have h1 : getOrCreateDefaultConsentSnapshot db u = (sn.id, db) := by
        unfold getOrCreateDefaultConsentSnapshot
        rw [hagc]
        try dsimp only
        rw [hsn]
      rw [h1]
      try dsimp only
      rw [h1]
    | none =>
      have hsnil : db.consentSnapshots.filter
          (fun s => s.consent_agreement_id == ag.id) = [] :=
        sortDescBy_head_none hsn
      unfold getOrCreateDefaultConsentSnapshot
      rw [hagc]
      try dsimp only
      rw [hsn]
      try dsimp only
      rw [hagc]
      try dsimp only
      rw [List.filter_append, hsnil]
      simp only [List.nil_append, List.filter_cons, beq_self_eq_true,
        if_true, List.filter_nil, sortDescBy, insertDescBy, List.head?_cons]
  | none =>
    have hanil := singleRow_none_of_le_one hagc hag
    have hsfil : db.consentSnapshots.filter
        (fun s => s.consent_agreement_id == db.nextId) = [] := by
      apply filter_eq_nil_of
      intro sn hsn2
      exact beq_eq_false_iff_ne.mpr (Nat.ne_of_lt (hfresh sn hsn2))
    unfold getOrCreateDefaultConsentSnapshot
    rw [hagc]
    try dsimp only
    rw [hsfil]
    simp only [sortDescBy, List.head?_nil]
    try dsimp only
    rw [List.filter_append, hanil]
    simp only [List.nil_append, List.filter_cons, beq_self_eq_true,
      if_true, List.filter_nil, singleRow]
    try dsimp only
    rw [List.filter_append, hsfil]
    simp only [List.nil_append, List.filter_cons, beq_self_eq_true,
      if_true, List.filter_nil, sortDescBy, insertDescBy, List.head?_cons]

set_option maxRecDepth 4000 in
/-- C7 counterexample: the snapshot-idempotence half of the claim fails in
a sequentially reachable store. In exDb7 — reached by a journal write (which
creates the health_data_storage agreement) followed by a Fasten demo sync
(which adds a second agreement with scope health_data, there being no
unique constraint) — snapshots for the user exist, yet the agreement
lookup's maybeSingle sees two rows and yields no data (its error object is
discarded), so each call of getOrCreateDefaultConsentSnapshot inserts a
fresh agreement and a fresh snapshot: two successive calls return snapshot
ids 117 and then 119, not the same id. -/
theorem consent_snapshot_not_idempotent_cex :
    ((exDb7.consentAgreements.filter (fun a => a.user_id == "u")).map
      (fun a => a.scope)) = ["health_data_storage", "health_data"] ∧
    exDb7.consentSnapshots.length = 2 ∧
    (getOrCreateDefaultConsentSnapshot exDb7 "u").1 = 117 ∧
    (getOrCreateDefaultConsentSnapshot
        (getOrCreateDefaultConsentSnapshot exDb7 "u").2 "u").1 = 119 ∧
    (getOrCreateDefaultConsentSnapshot
        (getOrCreateDefaultConsentSnapshot exDb7 "u").2 "u").1
      ≠ (getOrCreateDefaultConsentSnapshot exDb7 "u").1 := by
  have h1 : (getOrCreateDefaultConsentSnapshot exDb7 "u").1 = 117 := rfl
  have h2 : (getOrCreateDefaultConsentSnapshot
      (getOrCreateDefaultConsentSnapshot exDb7 "u").2 "u").1 = 119 := rfl
  refine ⟨rfl, rfl, h1, h2, ?_⟩
  rw [h1, h2]
  decide

/-- C7 amended: getOrCreateDataSource is idempotent on its natural key
under sequential calls — from a store with at most one row for
(user_id, type, name), two successive calls return the same id and exactly
one row for that key exists afterwards. getOrCreateDefaultConsentSnapshot,
by contrast, is idempotent only while the user holds at most one consent
agreement (and no snapshot references an id the counter has not yet
issued): under those hypotheses a repeated call returns the same snapshot
id; once a second agreement exists for the user — which a journal write
followed by a Fasten demo sync produces, as the counterexample shows — its
maybeSingle agreement lookup yields no data and every call creates and
returns a new snapshot. -/
theorem getOrCreate_idempotent (db : DB) (u k n : String)
    (hds : (db.dataSources.filter
      (fun d => d.user_id == u && d.type == k && d.name == n)).length ≤ 1)
    (hag : (db.consentAgreements.filter (fun a => a.user_id == u)).length ≤ 1)
    (hfresh : ∀ sn ∈ db.consentSnapshots, sn.consent_agreement_id < db.nextId) :
    (getOrCreateDataSource (getOrCreateDataSource db u k n).2 u k n).1
      = (getOrCreateDataSource db u k n).1 ∧
    ((getOrCreateDataSource (getOrCreateDataSource db u k n).2 u k n).2.dataSources.filter
      (fun d => d.user_id == u && d.type == k && d.name == n)).length = 1 ∧
    (getOrCreateDefaultConsentSnapshot
        (getOrCreateDefaultConsentSnapshot db u).2 u).1
      = (getOrCreateDefaultConsentSnapshot db u).1 := by
  obtain ⟨h1, h2⟩ := gocds_idem db u k n hds
  exact ⟨h1, h2, gocdcs_idem db u hag hfresh⟩

/-- Witness for get-or-create idempotence at the empty store: the two calls
on (u, manual, User Journal) agree and leave one row. -/
theorem getOrCreate_idempotent_witness :
    (getOrCreateDataSource
        (getOrCreateDataSource emptyDB "u" "manual" "User Journal").2
        "u" "manual" "User Journal").1
      = (getOrCreateDataSource emptyDB "u" "manual" "User Journal").1 ∧
    ((getOrCreateDataSource
        (getOrCreateDataSource emptyDB "u" "manual" "User Journal").2
        "u" "manual" "User Journal").2.dataSources.filter
      (fun d => d.user_id == "u" && d.type == "manual" &&
        d.name == "User Journal")).length = 1 ∧
    (getOrCreateDefaultConsentSnapshot
        (getOrCreateDefaultConsentSnapshot emptyDB "u").2 "u").1
      = (getOrCreateDefaultConsentSnapshot emptyDB "u").1 :=
  getOrCreate_idempotent emptyDB "u" "manual" "User Journal"
    (by decide) (by decide) (by intro sn h; cases h)

/-- C8: submitting a journal entry creates or reuses the manual
"User Journal" data source, creates a manual_entry provenance, creates or
reuses a consent snapshot, appends exactly one journal_entry timeline event
carrying the truncated text as summary and the text and category as
details, records a journal_created audit event, and a subsequent
journal-filtered timeline listing returns exactly that event. -/
theorem journal_entry_end_to_end (db : DB) (u title text category : String)
    (et : Nat) (hcat : category ≠ "")
    (hnoj : ∀ e ∈ db.timelineEvents, e.user_id = u →
      e.event_type ≠ "journal_entry") :
    ∃ ev : TimelineEvent,
      (journalSubmit db u title text category et).timelineEvents
        = db.timelineEvents ++ [ev] ∧
      ev.user_id = u ∧ ev.event_type = "journal_entry" ∧ ev.event_time = et ∧
      ev.summary = truncateSummary text ∧
      ev.details = JsonVal.obj
        [("text", .str text), ("category", .str category)] ∧
      (∃ p ∈ (journalSubmit db u title text category et).provenance,
        p.id = ev.provenance_id ∧ p.method = "manual_entry" ∧
        ∃ d ∈ (journalSubmit db u title text category et).dataSources,
          d.id = p.data_source_id ∧ d.user_id = u ∧ d.type = "manual" ∧
          d.name = "User Journal") ∧
      (∃ cs ∈ (journalSubmit db u title text category et).consentSnapshots,
        cs.id = ev.consent_snapshot_id) ∧
      (∃ au ∈ (journalSubmit db u title text category et).auditEvents,
        au.user_id = u ∧ au.action = "journal_created" ∧
        au.entity_type = "timeline_event" ∧ au.entity_id = ev.id) ∧
      filterJournal (listForUser (journalSubmit db u title text category et) u)
        = [ev] := by
  obtain ⟨ev, hev, hu, hty, htime, hsum, hdet, htitle, hprov, hcs, hau⟩ :=
    journalSubmit_spec db u title text category et
  have hdet2 : ev.details = JsonVal.obj
      [("text", .str text), ("category", .str category)] := by
    rw [hdet]
    unfold jsOr
    rw [if_neg hcat]
  refine ⟨ev, hev, hu, hty, htime, hsum, hdet2, hprov, hcs, hau, ?_⟩
  unfold filterJournal listForUser
  rw [hev, List.filter_append]
  have hevu : (List.filter (fun e => e.user_id == u) [ev]) = [ev] := by
    simp [hu]
  rw [hevu]
  have hperm := (perm_sortDescBy (fun e : TimelineEvent => e.event_time)
    (db.timelineEvents.filter (fun e => e.user_id == u) ++ [ev])).filter
    (fun e => e.event_type == "journal_entry")
  have hL : ((db.timelineEvents.filter (fun e => e.user_id == u) ++
      [ev]).filter (fun e => e.event_type == "journal_entry")) = [ev] := by
    rw [List.filter_append]
    have h0 : (db.timelineEvents.filter (fun e => e.user_id == u)).filter
        (fun e => e.event_type == "journal_entry") = [] := by
      apply filter_eq_nil_of
      intro e he
      rw [List.mem_filter] at he
      exact beq_eq_false_iff_ne.mpr (hnoj e he.1 (beq_iff_eq.mp he.2))
    rw [h0]
    simp [hty]
  rw [hL] at hperm
  exact List.perm_singleton.mp hperm

/-- Witness for the journal end-to-end scenario at the empty store with the
entry "felt dizzy"/"symptom". -/
theorem journal_entry_end_to_end_witness :
    ∃ ev : TimelineEvent,
      (journalSubmit emptyDB "u" "Morning" "felt dizzy" "symptom" 42).timelineEvents
        = emptyDB.timelineEvents ++ [ev] ∧
      ev.user_id = "u" ∧ ev.event_type = "journal_entry" ∧
      ev.event_time = 42 ∧
      ev.summary = truncateSummary "felt dizzy" ∧
      ev.details = JsonVal.obj
        [("text", .str "felt dizzy"), ("category", .str "symptom")] ∧
      (∃ p ∈ (journalSubmit emptyDB "u" "Morning" "felt dizzy" "symptom" 42).provenance,
        p.id = ev.provenance_id ∧ p.method = "manual_entry" ∧
        ∃ d ∈ (journalSubmit emptyDB "u" "Morning" "felt dizzy" "symptom" 42).dataSources,
          d.id = p.data_source_id ∧ d.user_id = "u" ∧ d.type = "manual" ∧
          d.name = "User Journal") ∧
      (∃ cs ∈ (journalSubmit emptyDB "u" "Morning" "felt dizzy" "symptom" 42).consentSnapshots,
        cs.id = ev.consent_snapshot_id) ∧
      (∃ au ∈ (journalSubmit emptyDB "u" "Morning" "felt dizzy" "symptom" 42).auditEvents,
        au.user_id = "u" ∧ au.action = "journal_created" ∧
        au.entity_type = "timeline_event" ∧ au.entity_id = ev.id) ∧
      filterJournal
        (listForUser (journalSubmit emptyDB "u" "Morning" "felt dizzy" "symptom" 42) "u")
        = [ev] :=
  journal_entry_end_to_end emptyDB "u" "Morning" "felt dizzy" "symptom" 42
    (by decide) (by intro e he; cases he)

end Myb
